import Mathlib

/-!
Verification development for the subscrape repository.

The embedding covers the operation dispatcher
(`subscrape/scrapers/parachain_scraper.py`) and the persistence facade
(`subscrape/db/subscrape_db.py`).  Python's dynamically typed configuration
trees are embedded as the inductive `ConfigValue`; Python `dict`s become
association lists with unique keys (iteration yields keys in order, indexing
is first-match lookup).  Fallible Python control flow (a raised `TypeError`
or `KeyError`) is embedded as `Except String`.  Fetch callbacks of the
external Subscan API collaborator are parameters returning the number of
items scraped; every walker additionally records the list of fetch
invocations it performs, so that theorems can speak about which calls were
made and with which scope.
-/

set_option autoImplicit false

/-- A value in the nested configuration tree: `None`, booleans, integers,
strings, lists of names (the only list shape the dispatcher iterates), and
string-keyed mappings. -/
inductive ConfigValue where
  | null : ConfigValue
  | boolVal : Bool → ConfigValue
  | natVal : Nat → ConfigValue
  | strVal : String → ConfigValue
  | listVal : List String → ConfigValue
  | dictVal : List (String × ConfigValue) → ConfigValue

/-- First-match lookup in an association list, mirroring Python dict
indexing (keys of a Python dict are unique, so first-match is exact). -/
def dictFind (entries : List (String × ConfigValue)) (k : String) :
    Option (String × ConfigValue) :=
  entries.find? (fun kv => kv.1 == k)

/-- Lookup with a default, used to state theorems about the value a walker
saw for a given key. -/
def dictGetD (entries : List (String × ConfigValue)) (k : String) : ConfigValue :=
  ((dictFind entries k).map (fun kv => kv.2)).getD ConfigValue.null

/-- Python subscription `value[k]` with a string key: succeeds on a dict,
raises `TypeError` on lists, strings and scalars, `KeyError` on a missing
key. -/
def configIndex (cv : ConfigValue) (k : String) : Except String ConfigValue :=
  match cv with
  | .dictVal entries =>
    match dictFind entries k with
    | some kv => .ok kv.2
    | none => .error "KeyError"
  | .listVal _ => .error "TypeError: list indices must be integers"
  | .strVal _ => .error "TypeError: string indices must be integers"
  | _ => .error "TypeError: NoneType object is not subscriptable"

/-- Python iteration `for x in value` as used by the dispatcher: a dict
yields its keys in order, a list its items, a string its characters; `None`,
booleans and integers raise `TypeError`. -/
def pyIterNames (cv : ConfigValue) : Except String (List String) :=
  match cv with
  | .dictVal entries => .ok (entries.map (fun kv => kv.1))
  | .listVal items => .ok items
  | .strVal s => .ok (s.data.map (fun c => String.mk [c]))
  | .null => .error "TypeError: NoneType object is not iterable"
  | .boolVal _ => .error "TypeError: bool object is not iterable"
  | .natVal _ => .error "TypeError: int object is not iterable"

/-- Python's `name.startswith("_")` for the one-character prefix `"_"`:
true exactly when the first character of the name is an underscore. -/
def isMeta (s : String) : Bool :=
  match s.data with
  | [] => false
  | c :: _ => c == '_'

/-- The metadata entries of a subtree: the underscore-prefixed keys of a
mapping (`_skip`, `_params`, `_auto_hydrate`, ...); non-mappings carry
none. -/
def metaEntries (cv : ConfigValue) : List (String × ConfigValue) :=
  match cv with
  | .dictVal entries => entries.filter (fun kv => isMeta kv.1)
  | _ => []

/-- The `_skip` marker found on a subtree, `false` when absent. -/
def subtreeSkip (cv : ConfigValue) : Bool :=
  match cv with
  | .dictVal entries =>
    match dictFind entries "_skip" with
    | some (_, .boolVal b) => b
    | _ => false
  | _ => false

/-- Parameter-bag merge: subtree-local keys override inherited ones. -/
def mergeBag (parent child : List (String × ConfigValue)) :
    List (String × ConfigValue) :=
  child ++ parent.filter (fun kv => (dictFind child kv.1).isNone)

/-- Modelled from the spec: the `ScrapeConfig` class (the configuration
scope of section 4.1) is not under `src/`; only its use sites are.  A scope
holds the subtree it governs, the inherited boolean `skip` flag, and the
inherited metadata parameter bag (`_params`, `_auto_hydrate`, ...). -/
structure ScrapeConfig where
  subtree : ConfigValue
  skip : Bool
  bag : List (String × ConfigValue)

/-- Modelled from the spec: `ScrapeConfig.create_inner_config(subtree)`
returns a new scope governing `subtree`, whose skip flag is the parent's
flag OR-ed with any `_skip` marker found on the subtree itself, and whose
parameter bag is the parent's with subtree-local metadata keys
overriding. -/
def ScrapeConfig.create_inner_config (c : ScrapeConfig) (subtree : ConfigValue) :
    ScrapeConfig :=
  { subtree := subtree
    skip := c.skip || subtreeSkip subtree
    bag := mergeBag c.bag (metaEntries subtree) }

/-- One invocation of the fetch function passed to `scrape_module_calls`:
the module name, call name and call-level scope it received. -/
structure Invocation where
  module : String
  call : String
  scope : ScrapeConfig

/-- One invocation of `api.fetch_transfers` made by `scrape_transfers`. -/
structure TransferInvocation where
  account : String
  scope : ScrapeConfig

/-- The sum of fetch results over a list of recorded invocations. -/
def traceSum (fetch : String → String → ScrapeConfig → Nat)
    (tr : List Invocation) : Nat :=
  (tr.map (fun inv => fetch inv.module inv.call inv.scope)).sum

/-- Lines 79-83 of `parachain_scraper.py`: the call-level scope.  When the
module's value `calls` is a dict, `create_inner_config(calls[call])` narrows
the module scope; otherwise the call scope is the module scope itself. -/
def callScope (calls : ConfigValue) (c : String) (module_config : ScrapeConfig) :
    Except String ScrapeConfig :=
  match calls with
  | .dictVal _ =>
    match configIndex calls c with
    | .error e => .error e
    | .ok sub => .ok (module_config.create_inner_config sub)
  | _ => .ok module_config

/-- The `for call in calls` loop of `scrape_module_calls` (lines 74-91),
recursing over the iterated call names: metadata keys are skipped, the call
scope is deduced, a scope with the skip flag contributes nothing, and
otherwise the fetch function runs and its count accumulates. -/
def walkCallList (m : String) (calls : ConfigValue) (module_config : ScrapeConfig)
    (fetch : String → String → ScrapeConfig → Nat) :
    List String → Except String (Nat × List Invocation)
  | [] => .ok (0, [])
  | c :: rest =>
    if isMeta c then walkCallList m calls module_config fetch rest
    else
      match callScope calls c module_config with
      | .error e => .error e
      | .ok call_config =>
        if call_config.skip then walkCallList m calls module_config fetch rest
        else
          match walkCallList m calls module_config fetch rest with
          | .error e => .error e
          | .ok (n, tr) =>
            .ok (fetch m c call_config + n, ⟨m, c, call_config⟩ :: tr)

/-- The body of the call loop for one module: iterate the module's value
(`for call in calls`) and walk the resulting names. -/
def walkCalls (m : String) (calls : ConfigValue) (module_config : ScrapeConfig)
    (fetch : String → String → ScrapeConfig → Nat) :
    Except String (Nat × List Invocation) :=
  match pyIterNames calls with
  | .error e => .error e
  | .ok names => walkCallList m calls module_config fetch names

/-- The `for module in modules` loop of `scrape_module_calls` (lines 66-91):
metadata keys are skipped, `calls = modules[module]` is looked up, the
module scope is derived with `create_inner_config(calls)`, and the call loop
runs. -/
def walkModules (modules : ConfigValue) (extrinsic_config : ScrapeConfig)
    (fetch : String → String → ScrapeConfig → Nat) :
    List String → Except String (Nat × List Invocation)
  | [] => .ok (0, [])
  | m :: rest =>
    if isMeta m then walkModules modules extrinsic_config fetch rest
    else
      match configIndex modules m with
      | .error e => .error e
      | .ok calls =>
        match walkCalls m calls (extrinsic_config.create_inner_config calls) fetch with
        | .error e => .error e
        | .ok (n1, t1) =>
          match walkModules modules extrinsic_config fetch rest with
          | .error e => .error e
          | .ok (n2, t2) => .ok (n1 + n2, t1 ++ t2)

/-- `ParachainScraper.scrape_module_calls(modules, chain_config,
fetch_function)`, lines 51-92: derives `extrinsic_config` from the whole
`modules` value, then iterates `for module in modules`.  Returns the
accumulated count together with the recorded fetch invocations. -/
def scrape_module_calls (modules : ConfigValue) (chain_config : ScrapeConfig)
    (fetch : String → String → ScrapeConfig → Nat) :
    Except String (Nat × List Invocation) :=
  let extrinsic_config := chain_config.create_inner_config modules
  match pyIterNames modules with
  | .error e => .error e
  | .ok names => walkModules modules extrinsic_config fetch names

/-- The `for account in accounts` loop of `scrape_transfers` (lines
107-123).  The source guard `type(account) is dict` tests the key (a
string), never the value, so it is always false and the account scope is
always the accounts-level scope. -/
def walkAccounts (accounts_config : ScrapeConfig)
    (fetch_transfers : String → ScrapeConfig → Nat) :
    List String → Except String (Nat × List TransferInvocation)
  | [] => .ok (0, [])
  | a :: rest =>
    if isMeta a then walkAccounts accounts_config fetch_transfers rest
    else
      let account_config := accounts_config
      if account_config.skip then walkAccounts accounts_config fetch_transfers rest
      else
        match walkAccounts accounts_config fetch_transfers rest with
        | .error e => .error e
        | .ok (n, tr) =>
          .ok (fetch_transfers a account_config + n, ⟨a, account_config⟩ :: tr)

/-- `ParachainScraper.scrape_transfers(accounts, chain_config)`, lines
94-123.  The body accumulates a local count, but the function has no
`return` statement, so its Python return value is `None`: the result value
is `none` whenever the walk completes. -/
def scrape_transfers (accounts : ConfigValue) (chain_config : ScrapeConfig)
    (fetch_transfers : String → ScrapeConfig → Nat) :
    Except String (Option Nat × List TransferInvocation) :=
  match pyIterNames accounts with
  | .error e => .error e
  | .ok names =>
    match walkAccounts (chain_config.create_inner_config accounts) fetch_transfers names with
    | .error e => .error e
    | .ok (_count, tr) => .ok (none, tr)

/-- The Subscan API surface consumed by the dispatcher (an external
collaborator; each entry point reports the number of items scraped). -/
structure SubscanApi where
  fetch_extrinsics_index : String → String → ScrapeConfig → Nat
  fetch_extrinsics : ConfigValue → Nat
  fetch_events_index : String → String → ScrapeConfig → Nat
  fetch_events : ConfigValue → Nat
  fetch_transfers : String → ScrapeConfig → Nat

/-- One fetch-API invocation recorded by `scrape`. -/
inductive FetchCall where
  | extrinsicsIndex : String → String → ScrapeConfig → FetchCall
  | extrinsicsList : ConfigValue → FetchCall
  | eventsIndex : String → String → ScrapeConfig → FetchCall
  | eventsList : ConfigValue → FetchCall
  | transfers : String → ScrapeConfig → FetchCall

/-- The `for operation in operations` loop of `ParachainScraper.scrape`
(lines 26-47): metadata keys are skipped; the five recognized operations
dispatch; an unrecognized key is logged (the bare `exit` expression on line
47 is a no-op) and the loop continues.  The `transfers` branch calls
`scrape_transfers`, which returns `None`, and then `await None` raises
`TypeError`. -/
def walkOps (operations : ConfigValue) (chain_config : ScrapeConfig)
    (api : SubscanApi) : List String → Except String (Nat × List FetchCall)
  | [] => .ok (0, [])
  | op :: rest =>
    if isMeta op then walkOps operations chain_config api rest
    else if op = "extrinsics" then
      match configIndex operations op with
      | .error e => .error e
      | .ok modules =>
        match scrape_module_calls modules chain_config api.fetch_extrinsics_index with
        | .error e => .error e
        | .ok (n1, t1) =>
          match walkOps operations chain_config api rest with
          | .error e => .error e
          | .ok (n2, t2) =>
            .ok (n1 + n2,
              t1.map (fun inv => FetchCall.extrinsicsIndex inv.module inv.call inv.scope) ++ t2)
    else if op = "extrinsics-list" then
      match configIndex operations op with
      | .error e => .error e
      | .ok extrinsics_list =>
        match walkOps operations chain_config api rest with
        | .error e => .error e
        | .ok (n2, t2) =>
          .ok (api.fetch_extrinsics extrinsics_list + n2,
            FetchCall.extrinsicsList extrinsics_list :: t2)
    else if op = "events" then
      match configIndex operations op with
      | .error e => .error e
      | .ok modules =>
        match scrape_module_calls modules chain_config api.fetch_events_index with
        | .error e => .error e
        | .ok (n1, t1) =>
          match walkOps operations chain_config api rest with
          | .error e => .error e
          | .ok (n2, t2) =>
            .ok (n1 + n2,
              t1.map (fun inv => FetchCall.eventsIndex inv.module inv.call inv.scope) ++ t2)
    else if op = "events-list" then
      match configIndex operations op with
      | .error e => .error e
      | .ok events_list =>
        match walkOps operations chain_config api rest with
        | .error e => .error e
        | .ok (n2, t2) =>
          .ok (api.fetch_events events_list + n2,
            FetchCall.eventsList events_list :: t2)
    else if op = "transfers" then
      match configIndex operations op with
      | .error e => .error e
      | .ok accounts =>
        match scrape_transfers accounts chain_config api.fetch_transfers with
        | .error e => .error e
        | .ok (some n1, tr) =>
          match walkOps operations chain_config api rest with
          | .error e => .error e
          | .ok (n2, t2) =>
            .ok (n1 + n2, tr.map (fun inv => FetchCall.transfers inv.account inv.scope) ++ t2)
        | .ok (none, _) =>
          .error "TypeError: object NoneType cannot be used in await expression"
    else
      walkOps operations chain_config api rest

/-- `ParachainScraper.scrape(operations, chain_config)`, lines 14-49. -/
def scrape (operations : ConfigValue) (chain_config : ScrapeConfig)
    (api : SubscanApi) : Except String (Nat × List FetchCall) :=
  match pyIterNames operations with
  | .error e => .error e
  | .ok names => walkOps operations chain_config api names

/-- A default chain scope: no skip, empty bag. -/
def dfltConfig : ScrapeConfig :=
  { subtree := ConfigValue.null, skip := false, bag := [] }

/-- A constant API model whose every entry point reports `k` items. -/
def apiK (k : Nat) : SubscanApi :=
  { fetch_extrinsics_index := fun _ _ _ => k
    fetch_extrinsics := fun _ => k
    fetch_events_index := fun _ _ _ => k
    fetch_events := fun _ => k
    fetch_transfers := fun _ _ => k }

/-- The `blocks` table row: `block_number` is the primary key and only
column. -/
structure BlockRec where
  block_number : Int

/-- The `extrinsics` table row, columns as declared in `subscrape_db.py`
(nullable columns are `Option`; JSON columns are kept opaque as strings). -/
structure ExtrinsicRec where
  id : String
  block_number : Int
  module : String
  call : String
  address : String
  nonce : Int
  extrinsic_hash : String
  success : Bool
  params : Option String
  fee : Int
  fee_used : Int
  error : Option String
  finalized : Bool
  tip : Int

/-- The `events` table row (`extrinsic_id` is declared `Integer` in the
source). -/
structure EventRec where
  id : String
  block_number : Int
  extrinsic_id : Int
  module : String
  event : String
  params : Option String
  finalized : Bool

/-- A record of one of the three mapped tables, as accepted by
`SubscrapeDB.write_item`. -/
inductive DBItem where
  | block : BlockRec → DBItem
  | extrinsic : ExtrinsicRec → DBItem
  | event : EventRec → DBItem

/-- The (table, primary key) identity of a record, the value the UNIQUE
primary-key constraints of the three tables are keyed on. -/
def DBItem.key : DBItem → String × String
  | .block b => ("blocks", toString b.block_number)
  | .extrinsic e => ("extrinsics", e.id)
  | .event e => ("events", e.id)

/-- Project an `events` row out of a generic record. -/
def DBItem.asEvent : DBItem → Option EventRec
  | .event e => some e
  | _ => none

/-- The state of a `SubscrapeDB`: the durably committed rows and the rows
staged in the session (added with `session.add` but not yet committed).
This embeds the SQLAlchemy session's documented staging/commit behaviour,
which `subscrape_db.py` delegates to. -/
structure DBState where
  committed : List DBItem
  staged : List DBItem

/-- `SubscrapeDB.write_item(item)`, lines 86-93: `session.add` stages the
record; nothing is committed. -/
def write_item (db : DBState) (item : DBItem) : DBState :=
  { db with staged := db.staged ++ [item] }

/-- Inserting one row into the committed store: a row whose (table, primary
key) already exists violates the UNIQUE primary-key constraint declared on
each table. -/
def insertRow (tbl : List DBItem) (item : DBItem) : Except String (List DBItem) :=
  if ∃ e ∈ tbl, e.key = item.key then .error "UNIQUE constraint failed"
  else .ok (tbl ++ [item])

/-- Insert the staged rows one by one, stopping at the first constraint
violation. -/
def insertAll (tbl : List DBItem) : List DBItem → Except String (List DBItem)
  | [] => .ok tbl
  | item :: rest =>
    match insertRow tbl item with
    | .error e => .error e
    | .ok tbl2 => insertAll tbl2 rest

/-- `SubscrapeDB.flush()`, lines 74-78: `session.commit` writes every staged
row in one transaction; a constraint violation aborts the whole batch and
nothing is committed. -/
def flush (db : DBState) : Except String DBState :=
  match insertAll db.committed db.staged with
  | .ok c => .ok { committed := c, staged := [] }
  | .error msg => .error msg

/-- The rows of the `events` table. -/
def eventsOf (db : DBState) : List DBItem :=
  db.committed

/-- The `events` table as typed rows. -/
def eventRows (db : DBState) : List EventRec :=
  db.committed.filterMap DBItem.asEvent

/-- `SubscrapeDB.missing_events_from_index_list(index_list)`, lines 150-161:
`matches` is the query `Event.id.in_(index_list)`, and the result keeps the
input indices that are not among the matched ids. -/
def missing_events_from_index_list (db : DBState) (index_list : List String) :
    List String :=
  let matched := (eventRows db).filter (fun e => decide (e.id ∈ index_list))
  index_list.filter (fun index => !(decide (index ∈ matched.map (fun mtch => mtch.id))))

/-- The spec's words for `missing_ids(candidate_ids)`: the subset of the
candidates, in original order, that do not exist in the Event table. -/
def missing_ids_spec (db : DBState) (index_list : List String) : List String :=
  index_list.filter (fun index => !(decide (index ∈ (eventRows db).map (fun e => e.id))))

/-- `SubscrapeDB.read_event_metadata(event_id)`, lines 163-173:
`session.query(Event).get(event_id)`, a point lookup by primary key. -/
def read_event_metadata (db : DBState) (event_id : String) : Option EventRec :=
  (eventRows db).find? (fun e => e.id == event_id)

/-- `SubscrapeDB.read_event(event_id)`, lines 175-185:
`session.query(Event).get(event_id)`, a point lookup by primary key. -/
def read_event (db : DBState) (event_id : String) : Option EventRec :=
  (eventRows db).find? (fun e => e.id == event_id)

/-- A map over a list all of whose members map to the same value is a
replicate. -/
theorem map_const_of_mem {α β : Type} (f : α → β) (b : β) (l : List α)
    (h : ∀ x ∈ l, f x = b) : l.map f = List.replicate l.length b := by
  induction l with
  | nil => rfl
  | cons x xs ih =>
    simp only [List.map_cons, List.length_cons, List.replicate_succ, List.cons.injEq]
    exact ⟨h x (List.mem_cons_self x xs), ih (fun y hy => h y (List.mem_cons_of_mem x hy))⟩

/-- Pointwise-equal functions map lists equally. -/
theorem map_congr_mem {α β : Type} (f g : α → β) (l : List α)
    (h : ∀ x ∈ l, f x = g x) : l.map f = l.map g := by
  induction l with
  | nil => rfl
  | cons x xs ih =>
    simp only [List.map_cons, List.cons.injEq]
    exact ⟨h x (List.mem_cons_self x xs), ih (fun y hy => h y (List.mem_cons_of_mem x hy))⟩

/-- The trace sum distributes over trace concatenation. -/
theorem traceSum_append (fetch : String → String → ScrapeConfig → Nat)
    (t1 t2 : List Invocation) :
    traceSum fetch (t1 ++ t2) = traceSum fetch t1 + traceSum fetch t2 := by
  simp [traceSum]

/-- Characterization of the call loop: on success the count is the sum of
the fetch results over the recorded invocations, and every invocation
carries the module name it was started with, a non-metadata call name, a
non-skipped scope, and exactly the scope `callScope` deduces for its call
name. -/
theorem walkCallList_ok (m : String) (calls : ConfigValue) (mc : ScrapeConfig)
    (fetch : String → String → ScrapeConfig → Nat) :
    ∀ (names : List String) (n : Nat) (tr : List Invocation),
      walkCallList m calls mc fetch names = .ok (n, tr) →
      n = traceSum fetch tr ∧
      ∀ inv ∈ tr, inv.module = m ∧ isMeta inv.call = false ∧
        inv.scope.skip = false ∧ callScope calls inv.call mc = .ok inv.scope := by
  intro names
  induction names with
  | nil =>
    intro n tr h
    simp only [walkCallList, Except.ok.injEq, Prod.mk.injEq] at h
    obtain ⟨rfl, rfl⟩ := h
    exact ⟨rfl, by simp⟩
  | cons c rest ih =>
    intro n tr h
    simp only [walkCallList] at h
    split at h
    · exact ih n tr h
    · next hc =>
      split at h
      · exact absurd h (by simp)
      · next cc hcs =>
        split at h
        · exact ih n tr h
        · next hsk =>
          split at h
          · exact absurd h (by simp)
          · next n0 tr0 hrec =>
            simp only [Except.ok.injEq, Prod.mk.injEq] at h
            obtain ⟨rfl, rfl⟩ := h
            obtain ⟨ihn, ihmem⟩ := ih n0 tr0 hrec
            constructor
            · simp only [traceSum, List.map_cons, List.sum_cons]
              exact congrArg (fun t => fetch m c cc + t) ihn
            · intro inv hinv
              rcases List.mem_cons.mp hinv with h1 | h2
              · subst h1
                refine ⟨rfl, ?_, ?_, hcs⟩
                · exact eq_false_of_ne_true hc
                · exact eq_false_of_ne_true hsk
              · exact ihmem inv h2

/-- Lift of `walkCallList_ok` through the iteration of the module's value. -/
theorem walkCalls_ok (m : String) (calls : ConfigValue) (mc : ScrapeConfig)
    (fetch : String → String → ScrapeConfig → Nat) (n : Nat) (tr : List Invocation)
    (h : walkCalls m calls mc fetch = .ok (n, tr)) :
    n = traceSum fetch tr ∧
    ∀ inv ∈ tr, inv.module = m ∧ isMeta inv.call = false ∧
      inv.scope.skip = false ∧ callScope calls inv.call mc = .ok inv.scope := by
  unfold walkCalls at h
  split at h
  · exact absurd h (by simp)
  · exact walkCallList_ok m calls mc fetch _ n tr h

/-- Characterization of the module loop: on success the count is the trace
sum and every invocation has non-metadata module and call names and a
non-skipped scope. -/
theorem walkModules_ok (modules : ConfigValue) (ec : ScrapeConfig)
    (fetch : String → String → ScrapeConfig → Nat) :
    ∀ (names : List String) (n : Nat) (tr : List Invocation),
      walkModules modules ec fetch names = .ok (n, tr) →
      n = traceSum fetch tr ∧
      ∀ inv ∈ tr, isMeta inv.module = false ∧ isMeta inv.call = false ∧
        inv.scope.skip = false := by
  intro names
  induction names with
  | nil =>
    intro n tr h
    simp only [walkModules, Except.ok.injEq, Prod.mk.injEq] at h
    obtain ⟨rfl, rfl⟩ := h
    exact ⟨rfl, by simp⟩
  | cons m rest ih =>
    intro n tr h
    simp only [walkModules] at h
    split at h
    · exact ih n tr h
    · next hm =>
      split at h
      · exact absurd h (by simp)
      · next calls hcalls =>
        split at h
        · exact absurd h (by simp)
        · next n1 t1 hwc =>
          split at h
          · exact absurd h (by simp)
          · next n2 t2 hrec =>
            simp only [Except.ok.injEq, Prod.mk.injEq] at h
            obtain ⟨rfl, rfl⟩ := h
            obtain ⟨hn1, hmem1⟩ := walkCalls_ok m calls _ fetch n1 t1 hwc
            obtain ⟨hn2, hmem2⟩ := ih n2 t2 hrec
            constructor
            · rw [traceSum_append, hn1, hn2]
            · intro inv hinv
              rcases List.mem_append.mp hinv with h1 | h2
              · obtain ⟨hmod, hcall, hskip, _⟩ := hmem1 inv h1
                exact ⟨hmod ▸ eq_false_of_ne_true hm, hcall, hskip⟩
              · exact hmem2 inv h2

/-- Characterization of `scrape_module_calls` on success. -/
theorem scrape_module_calls_ok (modules : ConfigValue) (cfg : ScrapeConfig)
    (fetch : String → String → ScrapeConfig → Nat) (n : Nat) (tr : List Invocation)
    (h : scrape_module_calls modules cfg fetch = .ok (n, tr)) :
    n = traceSum fetch tr ∧
    ∀ inv ∈ tr, isMeta inv.module = false ∧ isMeta inv.call = false ∧
      inv.scope.skip = false := by
  unfold scrape_module_calls at h
  split at h
  · exact absurd h (by simp)
  · exact walkModules_ok modules _ fetch _ n tr h

/-- Characterization of the account loop: every recorded invocation has a
non-metadata account name, a non-skipped scope (the accounts-level scope),
and the count is the sum of the fetch results. -/
theorem walkAccounts_ok (ac : ScrapeConfig) (ft : String → ScrapeConfig → Nat) :
    ∀ (names : List String) (n : Nat) (tr : List TransferInvocation),
      walkAccounts ac ft names = .ok (n, tr) →
      ∀ inv ∈ tr, isMeta inv.account = false ∧ inv.scope = ac := by
  intro names
  induction names with
  | nil =>
    intro n tr h
    simp only [walkAccounts, Except.ok.injEq, Prod.mk.injEq] at h
    obtain ⟨rfl, rfl⟩ := h
    simp
  | cons a rest ih =>
    intro n tr h
    simp only [walkAccounts] at h
    split at h
    · exact ih n tr h
    · next ha =>
      split at h
      · exact ih n tr h
      · split at h
        · exact absurd h (by simp)
        · next n0 tr0 hrec =>
          simp only [Except.ok.injEq, Prod.mk.injEq] at h
          obtain ⟨rfl, rfl⟩ := h
          intro inv hinv
          rcases List.mem_cons.mp hinv with h1 | h2
          · subst h1
            exact ⟨eq_false_of_ne_true ha, rfl⟩
          · exact ih n0 tr0 hrec inv h2

/-- Characterization of `scrape_transfers` on success: the returned value is
always `none` (the function body has no return statement) and every recorded
invocation has a non-metadata account name. -/
theorem scrape_transfers_ok (accounts : ConfigValue) (cfg : ScrapeConfig)
    (ft : String → ScrapeConfig → Nat) (r : Option Nat) (tr : List TransferInvocation)
    (h : scrape_transfers accounts cfg ft = .ok (r, tr)) :
    r = none ∧ ∀ inv ∈ tr, isMeta inv.account = false := by
  unfold scrape_transfers at h
  split at h
  · exact absurd h (by simp)
  · split at h
    · exact absurd h (by simp)
    · next n0 tr0 hwa =>
      simp only [Except.ok.injEq, Prod.mk.injEq] at h
      obtain ⟨rfl, rfl⟩ := h
      exact ⟨rfl, fun inv hinv => (walkAccounts_ok _ ft _ n0 tr0 hwa inv hinv).1⟩

/-- Inserting an entry with a different key does not change a first-match
lookup. -/
theorem dictFind_insert_ne (e1 e2 : List (String × ConfigValue)) (k : String)
    (v : ConfigValue) (name : String) (h : name ≠ k) :
    dictFind (e1 ++ (k, v) :: e2) name = dictFind (e1 ++ e2) name := by
  induction e1 with
  | nil =>
    simp only [List.nil_append, dictFind, List.find?]
    have hne : (k == name) = false := beq_eq_false_iff_ne.mpr (fun hk => h hk.symm)
    simp [hne]
  | cons a e1' ih =>
    simp only [List.cons_append, dictFind, List.find?] at *
    cases hpa : (a.1 == name) <;> simp [hpa, ih]

/-- Inserting an entry with a different key does not change dict
subscription. -/
theorem configIndex_insert_ne (e1 e2 : List (String × ConfigValue)) (k : String)
    (v : ConfigValue) (name : String) (h : name ≠ k) :
    configIndex (.dictVal (e1 ++ (k, v) :: e2)) name =
      configIndex (.dictVal (e1 ++ e2)) name := by
  simp only [configIndex, dictFind_insert_ne e1 e2 k v name h]

/-- The operation loop only consults the operations mapping through
subscription at non-metadata keys, so two mappings agreeing there walk
identically. -/
theorem walkOps_congr (d1 d2 : ConfigValue) (cfg : ScrapeConfig) (api : SubscanApi) :
    ∀ names : List String,
      (∀ name ∈ names, isMeta name = false →
        configIndex d1 name = configIndex d2 name) →
      walkOps d1 cfg api names = walkOps d2 cfg api names := by
  intro names
  induction names with
  | nil => intro _; rfl
  | cons op rest ih =>
    intro h
    have hrest : ∀ name ∈ rest, isMeta name = false →
        configIndex d1 name = configIndex d2 name :=
      fun name hn => h name (List.mem_cons_of_mem op hn)
    by_cases hop : isMeta op = true
    · simp only [walkOps, hop, if_true]
      exact ih hrest
    · have hopf : isMeta op = false := eq_false_of_ne_true hop
      have hidx := h op (List.mem_cons_self op rest) hopf
      simp only [walkOps, hopf, Bool.false_eq_true, if_false]
      rw [hidx, ih hrest]

/-- A name that is either metadata or unrecognized contributes nothing to
the operation loop: it can be dropped from the iterated names. -/
theorem walkOps_drop (ops : ConfigValue) (cfg : ScrapeConfig) (api : SubscanApi)
    (k : String)
    (hk : isMeta k = true ∨
      (k ≠ "extrinsics" ∧ k ≠ "extrinsics-list" ∧ k ≠ "events" ∧
        k ≠ "events-list" ∧ k ≠ "transfers")) :
    ∀ n1 n2 : List String,
      walkOps ops cfg api (n1 ++ k :: n2) = walkOps ops cfg api (n1 ++ n2) := by
  intro n1
  induction n1 with
  | nil =>
    intro n2
    simp only [List.nil_append]
    rcases hk with hk | ⟨h1, h2, h3, h4, h5⟩
    · simp only [walkOps, hk, if_true]
    · by_cases hu : isMeta k = true
      · simp only [walkOps, hu, if_true]
      · simp only [walkOps, eq_false_of_ne_true hu, Bool.false_eq_true, if_false,
          h1, h2, h3, h4, h5, ite_false, if_neg]
  | cons a n1' ih =>
    intro n2
    simp only [List.cons_append, walkOps, List.append_eq]
    rw [ih n2]

/-- C1: the spec requires that a `null` modules value (an operation such as
`extrinsics` requested with no restriction) still trigger one unfiltered
fetch.  The code instead raises `TypeError` when `for module in modules`
iterates `None` (line 66), performing zero fetch invocations; the second
conjunct runs the configuration of the repository's own test
`test_fetch_and_hydrate_extrinsic`, which expects success. -/
theorem claim1_null_modules_raises :
    scrape_module_calls ConfigValue.null dfltConfig (fun _ _ _ => 1) =
      .error "TypeError: NoneType object is not iterable" ∧
    scrape (ConfigValue.dictVal [("_auto_hydrate", ConfigValue.boolVal false),
        ("extrinsics", ConfigValue.null),
        ("_params", ConfigValue.dictVal [("block_num", ConfigValue.natVal 15228214)])])
      dfltConfig (apiK 1) =
      .error "TypeError: NoneType object is not iterable" :=
  ⟨rfl, rfl⟩

/-- C2: `scrape_transfers` falls off the end of its body without a `return`
statement (its docstring and `-> int` annotation promise the items-scraped
count), so its Python return value is `None` even though the account fetch
ran; `scrape` then fails on `await None` instead of adding the transfer
count (here 5) to its total. -/
theorem claim2_transfers_count_lost :
    scrape_transfers (ConfigValue.dictVal [("alice", ConfigValue.null)]) dfltConfig
        (fun _ _ => 5) =
      .ok (none,
        [⟨"alice", dfltConfig.create_inner_config
          (ConfigValue.dictVal [("alice", ConfigValue.null)])⟩]) ∧
    scrape (ConfigValue.dictVal [("transfers",
        ConfigValue.dictVal [("alice", ConfigValue.null)])]) dfltConfig (apiK 5) =
      .error "TypeError: object NoneType cannot be used in await expression" :=
  ⟨rfl, rfl⟩

/-- C3: the spec says a module whose configured value is `null` means "all
calls, no restriction" and is processed without error.  The code instead
raises `TypeError` when `for call in calls` iterates `None` (line 74); the
second conjunct runs the configuration of the repository's own test
`test_fetch_extrinsics_by_module`, which expects success. -/
theorem claim3_null_module_value_raises :
    scrape_module_calls (ConfigValue.dictVal [("bounties", ConfigValue.null)]) dfltConfig
        (fun _ _ _ => 1) =
      .error "TypeError: NoneType object is not iterable" ∧
    scrape (ConfigValue.dictVal [("_auto_hydrate", ConfigValue.boolVal false),
        ("extrinsics", ConfigValue.dictVal [("bounties", ConfigValue.null)])])
      dfltConfig (apiK 1) =
      .error "TypeError: NoneType object is not iterable" :=
  ⟨rfl, rfl⟩

/-- C4: an unrecognized, non-metadata top-level operation key is reported
and skipped without raising: alone it scrapes zero items with no fetch
invocation, and inserting it anywhere into an operations mapping leaves the
result of `scrape` (every sibling operation's processing) unchanged. -/
theorem claim4_unrecognized_operation (e1 e2 : List (String × ConfigValue))
    (k : String) (v : ConfigValue) (cfg : ScrapeConfig) (api : SubscanApi)
    (hmeta : isMeta k = false)
    (h1 : k ≠ "extrinsics") (h2 : k ≠ "extrinsics-list") (h3 : k ≠ "events")
    (h4 : k ≠ "events-list") (h5 : k ≠ "transfers")
    (hfresh : ∀ kv ∈ e1 ++ e2, kv.1 ≠ k) :
    scrape (.dictVal (e1 ++ (k, v) :: e2)) cfg api =
      scrape (.dictVal (e1 ++ e2)) cfg api ∧
    scrape (.dictVal [(k, v)]) cfg api = .ok (0, []) := by
  constructor
  · simp only [scrape, pyIterNames, List.map_append, List.map_cons]
    rw [walkOps_drop _ cfg api k (Or.inr ⟨h1, h2, h3, h4, h5⟩)]
    rw [← List.map_append]
    refine walkOps_congr _ _ cfg api _ ?_
    intro name hn _
    obtain ⟨kv, hkv, rfl⟩ := List.mem_map.mp hn
    exact configIndex_insert_ne e1 e2 k v kv.1 (hfresh kv hkv)
  · simp [scrape, pyIterNames, walkOps, hmeta, h1, h2, h3, h4, h5]

/-- Witness for C4 at a concrete input: one valid sibling operation
(`extrinsics-list`) and the bogus key `"bogus"`. -/
theorem claim4_witness :
    scrape (.dictVal ([("extrinsics-list", ConfigValue.listVal ["14238250-2"])] ++
        ("bogus", ConfigValue.null) :: [])) dfltConfig (apiK 3) =
      scrape (.dictVal ([("extrinsics-list", ConfigValue.listVal ["14238250-2"])] ++ []))
        dfltConfig (apiK 3) ∧
    scrape (.dictVal [("bogus", ConfigValue.null)]) dfltConfig (apiK 3) = .ok (0, []) :=
  claim4_unrecognized_operation [("extrinsics-list", ConfigValue.listVal ["14238250-2"])]
    [] "bogus" ConfigValue.null dfltConfig (apiK 3) (by decide) (by decide) (by decide)
    (by decide) (by decide) (by decide) (by simp)

/-- C5: reserved-prefix (metadata) keys are never treated as names at any
level of the tree walk: inserting a metadata key at the operations level
leaves `scrape` unchanged (no dispatch happens for it), and no successful
walk of `scrape_module_calls` or `scrape_transfers` records a fetch
invocation whose module, call or account name is a metadata key. -/
theorem claim5_metadata_keys (e1 e2 : List (String × ConfigValue)) (k : String)
    (v : ConfigValue) (cfg : ScrapeConfig) (api : SubscanApi)
    (modules accounts : ConfigValue)
    (f : String → String → ScrapeConfig → Nat) (ft : String → ScrapeConfig → Nat)
    (nm : Nat) (tm : List Invocation) (ra : Option Nat) (ta : List TransferInvocation)
    (hmeta : isMeta k = true)
    (hm : scrape_module_calls modules cfg f = .ok (nm, tm))
    (ha : scrape_transfers accounts cfg ft = .ok (ra, ta)) :
    scrape (.dictVal (e1 ++ (k, v) :: e2)) cfg api =
      scrape (.dictVal (e1 ++ e2)) cfg api ∧
    tm.all (fun inv => !(isMeta inv.module) && !(isMeta inv.call)) = true ∧
    ta.all (fun inv => !(isMeta inv.account)) = true := by
  refine ⟨?_, ?_, ?_⟩
  · simp only [scrape, pyIterNames, List.map_append, List.map_cons]
    rw [walkOps_drop _ cfg api k (Or.inl hmeta)]
    rw [← List.map_append]
    refine walkOps_congr _ _ cfg api _ ?_
    intro name hn hns
    obtain ⟨kv, hkv, rfl⟩ := List.mem_map.mp hn
    refine configIndex_insert_ne e1 e2 k v kv.1 ?_
    intro heq
    rw [heq, hmeta] at hns
    simp at hns
  · rw [List.all_eq_true]
    intro inv hinv
    obtain ⟨-, hmem⟩ := scrape_module_calls_ok modules cfg f nm tm hm
    obtain ⟨hmod, hcall, -⟩ := hmem inv hinv
    simp [hmod, hcall]
  · rw [List.all_eq_true]
    intro inv hinv
    obtain ⟨-, hmem⟩ := scrape_transfers_ok accounts cfg ft ra ta ha
    simp [hmem inv hinv]

/-- Witness for C5 at concrete inputs: inserting `"_params"` next to a valid
`extrinsics-list` operation changes nothing, and the concrete module and
account walks record only non-metadata names. -/
theorem claim5_witness :
    scrape (.dictVal ([("extrinsics-list", ConfigValue.listVal ["1-2"])] ++
        ("_params", ConfigValue.null) :: [])) dfltConfig (apiK 2) =
      scrape (.dictVal ([("extrinsics-list", ConfigValue.listVal ["1-2"])] ++ []))
        dfltConfig (apiK 2) ∧
    ([⟨"system", "remark",
        (dfltConfig.create_inner_config
          (ConfigValue.dictVal [("system", ConfigValue.listVal ["remark"])])).create_inner_config
          (ConfigValue.listVal ["remark"])⟩] : List Invocation).all
      (fun inv => !(isMeta inv.module) && !(isMeta inv.call)) = true ∧
    ([⟨"alice", dfltConfig.create_inner_config
        (ConfigValue.dictVal [("alice", ConfigValue.null)])⟩] :
      List TransferInvocation).all (fun inv => !(isMeta inv.account)) = true :=
  claim5_metadata_keys [("extrinsics-list", ConfigValue.listVal ["1-2"])] [] "_params"
    ConfigValue.null dfltConfig (apiK 2)
    (ConfigValue.dictVal [("system", ConfigValue.listVal ["remark"])])
    (ConfigValue.dictVal [("alice", ConfigValue.null)])
    (fun _ _ _ => 1) (fun _ _ => 1) 1
    [⟨"system", "remark",
      (dfltConfig.create_inner_config
        (ConfigValue.dictVal [("system", ConfigValue.listVal ["remark"])])).create_inner_config
        (ConfigValue.listVal ["remark"])⟩]
    none
    [⟨"alice", dfltConfig.create_inner_config
      (ConfigValue.dictVal [("alice", ConfigValue.null)])⟩]
    (by decide) rfl rfl

/-- C6: in a successful `scrape_module_calls` walk, no recorded fetch
invocation has a scope whose `skip` flag is set (a pair whose effective
call-level scope says skip is never fetched), and the returned count is the
sum of the fetch results over exactly the recorded invocations, so skipped
pairs contribute zero while the remaining pairs are still processed. -/
theorem claim6_skip_flag (modules : ConfigValue) (cfg : ScrapeConfig)
    (fetch : String → String → ScrapeConfig → Nat) (n : Nat) (tr : List Invocation)
    (h : scrape_module_calls modules cfg fetch = .ok (n, tr)) :
    tr.all (fun inv => !inv.scope.skip) = true ∧ n = traceSum fetch tr := by
  obtain ⟨hn, hmem⟩ := scrape_module_calls_ok modules cfg fetch n tr h
  refine ⟨?_, hn⟩
  rw [List.all_eq_true]
  intro inv hinv
  simp [(hmem inv hinv).2.2]

/-- Witness for C6 at a concrete input: module `"m"` has call `"a"` with a
`_skip` marker and call `"b"` without; only `"b"` is fetched and the count
is its fetch result. -/
theorem claim6_witness :
    (([⟨"m", "b",
        ((dfltConfig.create_inner_config
            (ConfigValue.dictVal [("m", ConfigValue.dictVal
              [("a", ConfigValue.dictVal [("_skip", ConfigValue.boolVal true)]),
               ("b", ConfigValue.null)])])).create_inner_config
          (ConfigValue.dictVal
            [("a", ConfigValue.dictVal [("_skip", ConfigValue.boolVal true)]),
             ("b", ConfigValue.null)])).create_inner_config
          ConfigValue.null⟩] : List Invocation).all
      (fun inv => !inv.scope.skip) = true) ∧
    7 = traceSum (fun _ _ _ => 7)
      [⟨"m", "b",
        ((dfltConfig.create_inner_config
            (ConfigValue.dictVal [("m", ConfigValue.dictVal
              [("a", ConfigValue.dictVal [("_skip", ConfigValue.boolVal true)]),
               ("b", ConfigValue.null)])])).create_inner_config
          (ConfigValue.dictVal
            [("a", ConfigValue.dictVal [("_skip", ConfigValue.boolVal true)]),
             ("b", ConfigValue.null)])).create_inner_config
          ConfigValue.null⟩] :=
  claim6_skip_flag
    (ConfigValue.dictVal [("m", ConfigValue.dictVal
      [("a", ConfigValue.dictVal [("_skip", ConfigValue.boolVal true)]),
       ("b", ConfigValue.null)])])
    dfltConfig (fun _ _ _ => 7) 7
    [⟨"m", "b",
      ((dfltConfig.create_inner_config
          (ConfigValue.dictVal [("m", ConfigValue.dictVal
            [("a", ConfigValue.dictVal [("_skip", ConfigValue.boolVal true)]),
             ("b", ConfigValue.null)])])).create_inner_config
        (ConfigValue.dictVal
          [("a", ConfigValue.dictVal [("_skip", ConfigValue.boolVal true)]),
           ("b", ConfigValue.null)])).create_inner_config
        ConfigValue.null⟩]
    rfl

/-- C7: in a successful call loop, a list-shaped module value gives every
recorded invocation exactly the module-level scope (no
`create_inner_config` on a non-mapping call value), while a map-shaped
module value gives each invocation the scope derived from that call's own
sub-configuration. -/
theorem claim7_list_module_scope (m : String) (cs : List String)
    (entries : List (String × ConfigValue)) (mc : ScrapeConfig)
    (fetch : String → String → ScrapeConfig → Nat)
    (nl nd : Nat) (tl td : List Invocation)
    (hl : walkCalls m (.listVal cs) mc fetch = .ok (nl, tl))
    (hd : walkCalls m (.dictVal entries) mc fetch = .ok (nd, td)) :
    tl.map Invocation.scope = List.replicate tl.length mc ∧
    td.map Invocation.scope =
      td.map (fun inv => mc.create_inner_config (dictGetD entries inv.call)) := by
  constructor
  · obtain ⟨-, hmem⟩ := walkCalls_ok m (.listVal cs) mc fetch nl tl hl
    refine map_const_of_mem _ _ _ ?_
    intro inv hinv
    have hcs := (hmem inv hinv).2.2.2
    simp only [callScope] at hcs
    exact (Except.ok.inj hcs).symm
  · obtain ⟨-, hmem⟩ := walkCalls_ok m (.dictVal entries) mc fetch nd td hd
    refine map_congr_mem _ _ _ ?_
    intro inv hinv
    have hcs := (hmem inv hinv).2.2.2
    simp only [callScope, configIndex] at hcs
    cases hdf : dictFind entries inv.call with
    | none => rw [hdf] at hcs; simp at hcs
    | some kv =>
      rw [hdf] at hcs
      simp only [Except.ok.injEq] at hcs
      rw [dictGetD, hdf]
      simp only [Option.map_some', Option.getD_some]
      exact hcs.symm

/-- Witness for C7 at concrete inputs: module `"system"` with the
list-shaped value `["remark"]` (scope stays the module scope) and with the
map-shaped value `{"remark": null}` (scope narrowed per call). -/
theorem claim7_witness :
    ([⟨"system", "remark", dfltConfig⟩] : List Invocation).map Invocation.scope =
      List.replicate 1 dfltConfig ∧
    ([⟨"system", "remark", dfltConfig.create_inner_config ConfigValue.null⟩] :
        List Invocation).map Invocation.scope =
      ([⟨"system", "remark", dfltConfig.create_inner_config ConfigValue.null⟩] :
        List Invocation).map
        (fun inv => dfltConfig.create_inner_config
          (dictGetD [("remark", ConfigValue.null)] inv.call)) :=
  claim7_list_module_scope "system" ["remark"] [("remark", ConfigValue.null)] dfltConfig
    (fun _ _ _ => 4) 4 4 [⟨"system", "remark", dfltConfig⟩]
    [⟨"system", "remark", dfltConfig.create_inner_config ConfigValue.null⟩] rfl rfl

/-- C8: `missing_events_from_index_list` returns exactly the ids of the
input list that do not occur as an Event id in the database, in the input
list's order — it coincides with the spec's `missing_ids` description. -/
theorem claim8_missing_ids (db : DBState) (index_list : List String) :
    missing_events_from_index_list db index_list = missing_ids_spec db index_list := by
  unfold missing_events_from_index_list missing_ids_spec
  refine List.filter_congr ?_
  intro i hi
  have hiff : (i ∈ ((eventRows db).filter
      (fun e => decide (e.id ∈ index_list))).map (fun mtch => mtch.id)) ↔
      (i ∈ (eventRows db).map (fun e => e.id)) := by
    constructor
    · intro hmem
      obtain ⟨e, he, rfl⟩ := List.mem_map.mp hmem
      exact List.mem_map.mpr ⟨e, (List.mem_filter.mp he).1, rfl⟩
    · intro hmem
      obtain ⟨e, he, rfl⟩ := List.mem_map.mp hmem
      refine List.mem_map.mpr ⟨e, List.mem_filter.mpr ⟨he, ?_⟩, rfl⟩
      exact decide_eq_true hi
  rw [decide_eq_decide.mpr hiff]

/-- C9: `write_item` stages a record without committing (the committed
database is unchanged until `flush`), and writing two records with the same
primary key and then flushing fails with a unique-constraint violation
instead of upserting or deduplicating. -/
theorem claim9_duplicate_key_flush_fails (db : DBState) (a b : DBItem)
    (hst : db.staged = []) (hfresh : ∀ e ∈ db.committed, e.key ≠ a.key)
    (hk : b.key = a.key) :
    (write_item db a).committed = db.committed ∧
    flush (write_item (write_item db a) b) = .error "UNIQUE constraint failed" := by
  refine ⟨rfl, ?_⟩
  have hstaged : (write_item (write_item db a) b).staged = [a, b] := by
    simp [write_item, hst]
  have hcommitted : (write_item (write_item db a) b).committed = db.committed := rfl
  unfold flush
  rw [hstaged, hcommitted]
  have hins1 : insertRow db.committed a = .ok (db.committed ++ [a]) := by
    unfold insertRow
    rw [if_neg]
    rintro ⟨e, he, hkey⟩
    exact hfresh e he hkey
  have hins2 : insertRow (db.committed ++ [a]) b = .error "UNIQUE constraint failed" := by
    unfold insertRow
    rw [if_pos]
    exact ⟨a, List.mem_append_right _ (List.mem_singleton_self a), hk.symm⟩
  simp only [insertAll, hins1, hins2]

/-- Witness for C9 at a concrete input: an empty database and two event
records with the same id `"1-1"`. -/
theorem claim9_witness :
    (write_item ⟨[], []⟩ (DBItem.event ⟨"1-1", 1, 0, "m", "e", none, true⟩)).committed =
      ([] : List DBItem) ∧
    flush (write_item (write_item ⟨[], []⟩
        (DBItem.event ⟨"1-1", 1, 0, "m", "e", none, true⟩))
        (DBItem.event ⟨"1-1", 1, 2, "m2", "e2", some "p", false⟩)) =
      .error "UNIQUE constraint failed" :=
  claim9_duplicate_key_flush_fails ⟨[], []⟩
    (DBItem.event ⟨"1-1", 1, 0, "m", "e", none, true⟩)
    (DBItem.event ⟨"1-1", 1, 2, "m2", "e2", some "p", false⟩)
    rfl (by simp) rfl

/-- C10: `read_event` and `read_event_metadata` are extensionally equal —
both are the same point lookup by primary key in the events table. -/
theorem claim10_read_event_eq :
    ∀ (db : DBState) (event_id : String),
      read_event db event_id = read_event_metadata db event_id :=
  fun _ _ => rfl
